import Mathlib

/-!
Verification of the voice-model cache, synthesis/transcode pipeline and
artifact lifecycle of the `md-tts` repository (`src/services/tts_service.py`,
`src/models/voice_models.py`), as a shallow embedding in Lean 4.

Modelling conventions:
* File systems are association lists from file name to byte size (`FS`).
* External effects (HTTP downloads, the ffmpeg subprocess, the synthesis
  engine) are supplied by an `Env` record describing what the outside world
  does; the embedded functions consume it deterministically.
* Python exceptions become `Except` results; `None` returns become `none`.
* `asyncio` concurrency for `get_voice` is modelled separately as a
  small-step interleaving semantics (`ConcState`), with atomic blocks cut at
  the `await` suspension points of the source.
-/

deriving instance DecidableEq for Except

namespace MdTts

/-- Association-list lookup keyed by decidable equality; models Python
`dict` lookup / `in`. -/
def lookupA {α : Type} (k : String) : List (String × α) → Option α
  | [] => none
  | (a, v) :: rest => if a = k then some v else lookupA k rest

/-- Association-list store; models Python `d[k] = v` (replace the existing
binding, else append). -/
def setA {α : Type} (k : String) (v : α) : List (String × α) → List (String × α)
  | [] => [(k, v)]
  | (a, w) :: rest => if a = k then (k, v) :: rest else (a, w) :: setA k v rest

/-- Association-list removal; models `Path.unlink` on the file-system maps. -/
def removeA {α : Type} (k : String) : List (String × α) → List (String × α)
  | [] => []
  | (a, w) :: rest => if a = k then rest else (a, w) :: removeA k rest

/-- A directory: file name to byte size. -/
abbrev FS := List (String × Nat)

/-- `Path.rename`: move the content of `src` to `dst` (no-op when `src` is
absent; at every call site of the model `src` exists). -/
def renameF (fs : FS) (src dst : String) : FS :=
  match lookupA src fs with
  | some n => setA dst n (removeA src fs)
  | none => fs

/-- The whitespace stripped by Python `str.rstrip()` in the ASCII range. -/
def pyIsSpace (c : Char) : Bool :=
  c == ' ' || c == '\t' || c == '\n' || c == '\x0d' || c == '\x0b' || c == '\x0c'

/-- Python `str.rstrip()`: drop trailing whitespace. -/
def pyRstrip (s : String) : String :=
  ⟨(s.data.reverse.dropWhile pyIsSpace).reverse⟩

/-- The character filter of `convert_text_to_speech`:
`c.isalnum() or c in (" ", "-", "_")`.  `Char.isAlphanum` agrees with
Python `str.isalnum` on the ASCII range, the range this development
evaluates it on. -/
def keepChar (c : Char) : Bool :=
  c.isAlphanum || c == ' ' || c == '-' || c == '_'

/-- `safe_title = "".join(c for c in title if c.isalnum() or c in (" ", "-", "_")).rstrip()`
(tts_service.py lines 179-181). -/
def safe_title_of (title : String) : String :=
  pyRstrip ⟨title.data.filter keepChar⟩

/-- Python slicing `s[:50]` (by characters). -/
def pySlice50 (s : String) : String :=
  ⟨s.data.take 50⟩

/-- The filename computation of `convert_text_to_speech` (lines 177-182):
`f"{conversion_id}.wav"`, replaced by `f"{conversion_id}_{safe_title[:50]}.wav"`
when `title` is truthy (present and non-empty). -/
def make_filename (cid : String) (title : Option String) : String :=
  match title with
  | some t => if t = "" then cid ++ ".wav" else cid ++ "_" ++ pySlice50 (safe_title_of t) ++ ".wav"
  | none => cid ++ ".wav"

/-- The stem of `pathlib.Path.with_suffix`: the name up to its last dot, the
whole name when it has no dot. -/
def stem_of (name : String) : String :=
  if '.' ∈ name.data then
    ⟨(((name.data.reverse).dropWhile (fun c => !(c == '.'))).drop 1).reverse⟩
  else name

/-- `pathlib.Path.with_suffix`: swap the extension after the last dot. -/
def with_suffix (name suffix : String) : String :=
  stem_of name ++ suffix

/-- `VoiceModel` of `src/models/voice_models.py` (lines 10-22). -/
structure VoiceModel where
  id : String
  language : String
  language_code : String
  language_name : String
  speaker : String
  quality : String
  model_url : String
  config_url : String
  gender : Option String := none
  description : Option String := none
deriving DecidableEq

/-- The `"en_US-lessac-medium"` catalog entry (also the default voice). -/
def lessacMedium : VoiceModel :=
  { id := "en_US-lessac-medium"
    language := "English (US)"
    language_code := "en_US"
    language_name := "English"
    speaker := "lessac"
    quality := "medium"
    gender := some "female"
    description := some "High quality female American English voice"
    model_url := "https://huggingface.co/rhasspy/piper-voices/resolve/v1.0.0/en/en_US/lessac/medium/en_US-lessac-medium.onnx"
    config_url := "https://huggingface.co/rhasspy/piper-voices/resolve/v1.0.0/en/en_US/lessac/medium/en_US-lessac-medium.onnx.json" }

/-- `VOICE_MODELS` (voice_models.py lines 26-246): the static catalog,
keyed by voice id, in source order. -/
def VOICE_MODELS : List (String × VoiceModel) :=
  [ ("en_US-lessac-medium", lessacMedium),
    ("en_US-lessac-high",
      { id := "en_US-lessac-high", language := "English (US)", language_code := "en_US",
        language_name := "English", speaker := "lessac", quality := "high",
        gender := some "female", description := some "Very high quality female American English voice",
        model_url := "https://huggingface.co/rhasspy/piper-voices/resolve/v1.0.0/en/en_US/lessac/high/en_US-lessac-high.onnx",
        config_url := "https://huggingface.co/rhasspy/piper-voices/resolve/v1.0.0/en/en_US/lessac/high/en_US-lessac-high.onnx.json" }),
    ("en_US-ryan-medium",
      { id := "en_US-ryan-medium", language := "English (US)", language_code := "en_US",
        language_name := "English", speaker := "ryan", quality := "medium",
        gender := some "male", description := some "High quality male American English voice",
        model_url := "https://huggingface.co/rhasspy/piper-voices/resolve/v1.0.0/en/en_US/ryan/medium/en_US-ryan-medium.onnx",
        config_url := "https://huggingface.co/rhasspy/piper-voices/resolve/v1.0.0/en/en_US/ryan/medium/en_US-ryan-medium.onnx.json" }),
    ("en_US-ryan-high",
      { id := "en_US-ryan-high", language := "English (US)", language_code := "en_US",
        language_name := "English", speaker := "ryan", quality := "high",
        gender := some "male", description := some "Very high quality male American English voice",
        model_url := "https://huggingface.co/rhasspy/piper-voices/resolve/v1.0.0/en/en_US/ryan/high/en_US-ryan-high.onnx",
        config_url := "https://huggingface.co/rhasspy/piper-voices/resolve/v1.0.0/en/en_US/ryan/high/en_US-ryan-high.onnx.json" }),
    ("en_US-amy-medium",
      { id := "en_US-amy-medium", language := "English (US)", language_code := "en_US",
        language_name := "English", speaker := "amy", quality := "medium",
        gender := some "female", description := some "Natural female American English voice",
        model_url := "https://huggingface.co/rhasspy/piper-voices/resolve/v1.0.0/en/en_US/amy/medium/en_US-amy-medium.onnx",
        config_url := "https://huggingface.co/rhasspy/piper-voices/resolve/v1.0.0/en/en_US/amy/medium/en_US-amy-medium.onnx.json" }),
    ("en_US-joe-medium",
      { id := "en_US-joe-medium", language := "English (US)", language_code := "en_US",
        language_name := "English", speaker := "joe", quality := "medium",
        gender := some "male", description := some "Clear male American English voice",
        model_url := "https://huggingface.co/rhasspy/piper-voices/resolve/v1.0.0/en/en_US/joe/medium/en_US-joe-medium.onnx",
        config_url := "https://huggingface.co/rhasspy/piper-voices/resolve/v1.0.0/en/en_US/joe/medium/en_US-joe-medium.onnx.json" }),
    ("en_GB-alan-medium",
      { id := "en_GB-alan-medium", language := "English (UK)", language_code := "en_GB",
        language_name := "English", speaker := "alan", quality := "medium",
        gender := some "male", description := some "British male English voice",
        model_url := "https://huggingface.co/rhasspy/piper-voices/resolve/v1.0.0/en/en_GB/alan/medium/en_GB-alan-medium.onnx",
        config_url := "https://huggingface.co/rhasspy/piper-voices/resolve/v1.0.0/en/en_GB/alan/medium/en_GB-alan-medium.onnx.json" }),
    ("en_GB-cori-high",
      { id := "en_GB-cori-high", language := "English (UK)", language_code := "en_GB",
        language_name := "English", speaker := "cori", quality := "high",
        gender := some "female", description := some "High quality British female voice",
        model_url := "https://huggingface.co/rhasspy/piper-voices/resolve/v1.0.0/en/en_GB/cori/high/en_GB-cori-high.onnx",
        config_url := "https://huggingface.co/rhasspy/piper-voices/resolve/v1.0.0/en/en_GB/cori/high/en_GB-cori-high.onnx.json" }),
    ("de_DE-thorsten-medium",
      { id := "de_DE-thorsten-medium", language := "German", language_code := "de_DE",
        language_name := "Deutsch", speaker := "thorsten", quality := "medium",
        gender := some "male", description := some "German male voice",
        model_url := "https://huggingface.co/rhasspy/piper-voices/resolve/v1.0.0/de/de_DE/thorsten/medium/de_DE-thorsten-medium.onnx",
        config_url := "https://huggingface.co/rhasspy/piper-voices/resolve/v1.0.0/de/de_DE/thorsten/medium/de_DE-thorsten-medium.onnx.json" }),
    ("de_DE-thorsten-high",
      { id := "de_DE-thorsten-high", language := "German", language_code := "de_DE",
        language_name := "Deutsch", speaker := "thorsten", quality := "high",
        gender := some "male", description := some "High quality German male voice",
        model_url := "https://huggingface.co/rhasspy/piper-voices/resolve/v1.0.0/de/de_DE/thorsten/high/de_DE-thorsten-high.onnx",
        config_url := "https://huggingface.co/rhasspy/piper-voices/resolve/v1.0.0/de/de_DE/thorsten/high/de_DE-thorsten-high.onnx.json" }),
    ("fr_FR-siwis-medium",
      { id := "fr_FR-siwis-medium", language := "French", language_code := "fr_FR",
        language_name := "Français", speaker := "siwis", quality := "medium",
        gender := some "female", description := some "French female voice",
        model_url := "https://huggingface.co/rhasspy/piper-voices/resolve/v1.0.0/fr/fr_FR/siwis/medium/fr_FR-siwis-medium.onnx",
        config_url := "https://huggingface.co/rhasspy/piper-voices/resolve/v1.0.0/fr/fr_FR/siwis/medium/fr_FR-siwis-medium.onnx.json" }),
    ("fr_FR-tom-medium",
      { id := "fr_FR-tom-medium", language := "French", language_code := "fr_FR",
        language_name := "Français", speaker := "tom", quality := "medium",
        gender := some "male", description := some "French male voice",
        model_url := "https://huggingface.co/rhasspy/piper-voices/resolve/v1.0.0/fr/fr_FR/tom/medium/fr_FR-tom-medium.onnx",
        config_url := "https://huggingface.co/rhasspy/piper-voices/resolve/v1.0.0/fr/fr_FR/tom/medium/fr_FR-tom-medium.onnx.json" }),
    ("es_ES-davefx-medium",
      { id := "es_ES-davefx-medium", language := "Spanish (Spain)", language_code := "es_ES",
        language_name := "Español", speaker := "davefx", quality := "medium",
        gender := some "male", description := some "Spanish male voice",
        model_url := "https://huggingface.co/rhasspy/piper-voices/resolve/v1.0.0/es/es_ES/davefx/medium/es_ES-davefx-medium.onnx",
        config_url := "https://huggingface.co/rhasspy/piper-voices/resolve/v1.0.0/es/es_ES/davefx/medium/es_ES-davefx-medium.onnx.json" }),
    ("es_MX-claude-high",
      { id := "es_MX-claude-high", language := "Spanish (Mexico)", language_code := "es_MX",
        language_name := "Español", speaker := "claude", quality := "high",
        gender := some "male", description := some "Mexican Spanish male voice",
        model_url := "https://huggingface.co/rhasspy/piper-voices/resolve/v1.0.0/es/es_MX/claude/high/es_MX-claude-high.onnx",
        config_url := "https://huggingface.co/rhasspy/piper-voices/resolve/v1.0.0/es/es_MX/claude/high/es_MX-claude-high.onnx.json" }),
    ("it_IT-paola-medium",
      { id := "it_IT-paola-medium", language := "Italian", language_code := "it_IT",
        language_name := "Italiano", speaker := "paola", quality := "medium",
        gender := some "female", description := some "Italian female voice",
        model_url := "https://huggingface.co/rhasspy/piper-voices/resolve/v1.0.0/it/it_IT/paola/medium/it_IT-paola-medium.onnx",
        config_url := "https://huggingface.co/rhasspy/piper-voices/resolve/v1.0.0/it/it_IT/paola/medium/it_IT-paola-medium.onnx.json" }),
    ("pt_BR-faber-medium",
      { id := "pt_BR-faber-medium", language := "Portuguese (Brazil)", language_code := "pt_BR",
        language_name := "Português", speaker := "faber", quality := "medium",
        gender := some "male", description := some "Brazilian Portuguese male voice",
        model_url := "https://huggingface.co/rhasspy/piper-voices/resolve/v1.0.0/pt/pt_BR/faber/medium/pt_BR-faber-medium.onnx",
        config_url := "https://huggingface.co/rhasspy/piper-voices/resolve/v1.0.0/pt/pt_BR/faber/medium/pt_BR-faber-medium.onnx.json" }),
    ("ru_RU-denis-medium",
      { id := "ru_RU-denis-medium", language := "Russian", language_code := "ru_RU",
        language_name := "Русский", speaker := "denis", quality := "medium",
        gender := some "male", description := some "Russian male voice",
        model_url := "https://huggingface.co/rhasspy/piper-voices/resolve/v1.0.0/ru/ru_RU/denis/medium/ru_RU-denis-medium.onnx",
        config_url := "https://huggingface.co/rhasspy/piper-voices/resolve/v1.0.0/ru/ru_RU/denis/medium/ru_RU-denis-medium.onnx.json" }) ]

/-- `get_voice_by_id` (voice_models.py lines 254-256): `VOICE_MODELS.get(voice_id)`. -/
def get_voice_by_id (voice_id : String) : Option VoiceModel :=
  lookupA voice_id VOICE_MODELS

/-- `get_default_voice` (voice_models.py lines 264-266):
`VOICE_MODELS["en_US-lessac-medium"]`. -/
def get_default_voice : VoiceModel := lessacMedium

/-- What one HTTP GET of the environment does: succeed streaming `size`
bytes, answer with a non-200 status, or drop the connection after
`written` bytes were already streamed to the open file. -/
inductive DlOutcome
  | ok (size : Nat)
  | httpError (status : Nat)
  | connFail (written : Nat)
deriving DecidableEq

/-- What the external `ffmpeg` invocation does: succeed (exit 0), be
absent (`FileNotFoundError`), or exit with a non-zero status. -/
inductive FfmpegBehavior
  | works
  | missing
  | fails
deriving DecidableEq

/-- The external world of one service call: the network's answer per URL,
whether `PiperVoice.load` succeeds, what ffmpeg does, whether
`voice.synthesize` succeeds and how many bytes the produced WAV
and the transcoded MP3 hold. -/
structure Env where
  net : String → DlOutcome
  load_ok : Bool := true
  ffmpeg : FfmpegBehavior := .works
  synth_ok : Bool := true
  wav_bytes : Nat := 1
  mp3_bytes : Nat := 1

/-- Exceptions of the service, by raise site:
`voiceNotFound` = `RuntimeError(f"Voice model {voice_id} not found in configuration")`,
`downloadFailed` = `RuntimeError("Failed to download voice model: ...")`,
`loadFailed` = a `PiperVoice.load` exception, `keyError` = a dict `KeyError`
(unreachable in the modelled paths), `synthFailed` = a `voice.synthesize`
exception. -/
inductive TTSError
  | voiceNotFound (vid : String)
  | downloadFailed
  | loadFailed
  | keyError
  | synthFailed
deriving DecidableEq

/-- The mutable state of a `TTSService` instance plus its two directories.
`loaded_voices` maps voice id to the engine handle; engine handles are the
serial numbers of `PiperVoice.load` calls (`next_engine` is the next serial),
so two distinct loads yield distinct handles, as distinct Python objects do.
`fetched` records every URL an HTTP GET was issued for (network activity). -/
structure TTSState where
  loaded_voices : List (String × Nat)
  current_voice : Option Nat := none
  current_voice_id : Option String := none
  models_fs : FS
  audio_fs : FS
  fetched : List String := []
  next_engine : Nat := 0
deriving DecidableEq

/-- The `async with session.get(url) as response: ...` block of
`_download_voice_model` (lines 126-135 and 138-147): issue the GET; on
status 200 stream-write the body to `fname` (`open(fname, "wb")` creates or
truncates the file at its final name immediately); on a non-200 status no
file is opened; on a dropped connection the partially streamed bytes stay
in `fname`.  Returns whether the block completed without raising. -/
def fetch_file (env : Env) (st : TTSState) (url fname : String) : Bool × TTSState :=
  let st := { st with fetched := st.fetched ++ [url] }
  match env.net url with
  | .ok n => (true, { st with models_fs := setA fname n st.models_fs })
  | .httpError _ => (false, st)
  | .connFail w => (false, { st with models_fs := setA fname w st.models_fs })

/-- `TTSService._download_voice_model` (tts_service.py lines 97-154):
return the model path at once when both files exist on disk (sizes are not
inspected); otherwise resolve the catalog entry (raising when absent) and
download the model file, then the config file, each directly to its final
name; any fetch failure raises after the bytes already streamed are left
in place. -/
def download_voice_model (env : Env) (st : TTSState) (voice_id : String) :
    Except TTSError String × TTSState :=
  let model_file := voice_id ++ ".onnx"
  let config_file := voice_id ++ ".onnx.json"
  if (lookupA model_file st.models_fs).isSome && (lookupA config_file st.models_fs).isSome then
    (.ok model_file, st)
  else
    match get_voice_by_id voice_id with
    | none => (.error (.voiceNotFound voice_id), st)
    | some vm =>
      match fetch_file env st vm.model_url model_file with
      | (false, st1) => (.error .downloadFailed, st1)
      | (true, st1) =>
        match fetch_file env st1 vm.config_url config_file with
        | (false, st2) => (.error .downloadFailed, st2)
        | (true, st2) => (.ok model_file, st2)

/-- `TTSService.initialize_voice` (lines 48-72): default the id; when it is
not in `loaded_voices`, download the model and `PiperVoice.load` it, caching
the engine; then set the current voice from the cache.  Errors re-raise. -/
def initialize_voice (env : Env) (st : TTSState) (voice_id? : Option String) :
    Except TTSError Unit × TTSState :=
  let voice_id := voice_id?.getD get_default_voice.id
  let load_step : Except TTSError Unit × TTSState :=
    match lookupA voice_id st.loaded_voices with
    | some _ => (.ok (), st)
    | none =>
      match download_voice_model env st voice_id with
      | (.error e, st1) => (.error e, st1)
      | (.ok _path, st1) =>
        if env.load_ok then
          (.ok (), { st1 with
            loaded_voices := setA voice_id st1.next_engine st1.loaded_voices,
            next_engine := st1.next_engine + 1 })
        else (.error .loadFailed, st1)
  match load_step with
  | (.error e, st1) => (.error e, st1)
  | (.ok _, st1) =>
    match lookupA voice_id st1.loaded_voices with
    | some v => (.ok (), { st1 with current_voice := some v, current_voice_id := some voice_id })
    | none => (.error .keyError, st1)

/-- `TTSService.get_voice` (lines 74-90): default the id; when it is not in
`loaded_voices`, run `initialize_voice`; return `loaded_voices[voice_id]`. -/
def get_voice (env : Env) (st : TTSState) (voice_id? : Option String) :
    Except TTSError Nat × TTSState :=
  let voice_id := voice_id?.getD get_default_voice.id
  match lookupA voice_id st.loaded_voices with
  | some v => (.ok v, st)
  | none =>
    match initialize_voice env st (some voice_id) with
    | (.error e, st1) => (.error e, st1)
    | (.ok _, st1) =>
      match lookupA voice_id st1.loaded_voices with
      | some v => (.ok v, st1)
      | none => (.error .keyError, st1)

/-- `TTSService._convert_to_mp3` (lines 211-248) acting on the audio
directory: on success ffmpeg writes `mp3_file`; when ffmpeg is absent or
exits non-zero, the caught handler renames `wav_file` to
`mp3_file.with_suffix(".wav")`.  The function never raises. -/
def convert_to_mp3 (env : Env) (fs : FS) (wav_file mp3_file : String) : FS :=
  match env.ffmpeg with
  | .works => setA mp3_file env.mp3_bytes fs
  | .missing => renameF fs wav_file (with_suffix mp3_file ".wav")
  | .fails => renameF fs wav_file (with_suffix mp3_file ".wav")

/-- `TTSService.convert_text_to_speech` (lines 156-209): acquire the voice,
derive the filename from the conversion id and optional title, synthesize the
WAV, transcode (with the absorbed fallback of `_convert_to_mp3`), delete the
WAV, and return `(conversion_id, mp3_file)`.  On a synthesis failure the
partial WAV is unlinked and the error re-raised.  `cid` stands for the
generated `str(uuid.uuid4())`; the synthesized/transcoded byte counts come
from `env`. -/
def convert_text_to_speech (env : Env) (st : TTSState) (cid : String) (_text : String)
    (title : Option String) (voice_id? : Option String) :
    Except TTSError (String × String) × TTSState :=
  match get_voice env st voice_id? with
  | (.error e, st1) => (.error e, st1)
  | (.ok _voice, st1) =>
    let audio_file := make_filename cid title
    if env.synth_ok then
      let st2 := { st1 with audio_fs := setA audio_file env.wav_bytes st1.audio_fs }
      let mp3_file := with_suffix audio_file ".mp3"
      let st3 := { st2 with audio_fs := convert_to_mp3 env st2.audio_fs audio_file mp3_file }
      let st4 := { st3 with audio_fs := removeA audio_file st3.audio_fs }
      (.ok (cid, mp3_file), st4)
    else
      let st2 := { st1 with audio_fs := setA audio_file 0 st1.audio_fs }
      let st3 := { st2 with audio_fs := removeA audio_file st2.audio_fs }
      (.error .synthFailed, st3)

/-- One entry of `audio_path.iterdir()` for the sweep: its name, its
`st_mtime` (seconds), whether it is a regular file, and whether `unlink`
on it succeeds (`deletable = false` models a per-file `OSError`). -/
structure AFile where
  name : String
  mtime : Int
  isFile : Bool := true
  deletable : Bool := true
deriving DecidableEq

/-- `TTSService.cleanup_old_files` (lines 279-299): for every regular file
under the audio directory whose age exceeds `max_age_days * 24 * 60 * 60`
seconds, try to `unlink` it, logging and skipping per-file failures.  The
Python function is annotated `-> None` and has no `return` statement: the
first component is its returned value, always `none`. -/
def cleanup_old_files (max_age_days : Int) (current_time : Int) :
    List AFile → Option Nat × List AFile
  | [] => (none, [])
  | f :: rest =>
    let (r, kept) := cleanup_old_files max_age_days current_time rest
    if f.isFile ∧ current_time - f.mtime > max_age_days * 24 * 60 * 60 then
      if f.deletable then (r, kept) else (r, f :: kept)
    else (r, f :: kept)

/-- One in-flight `get_voice(vid)` call in the interleaving model of the
`asyncio` event loop.  `pc = 0`: about to run the synchronous region from
the `voice_id not in self.loaded_voices` test (get_voice line 87, repeated
at initialize_voice line 60) up to the first `await` suspension inside
`_download_voice_model`; `pc = 1`: suspended in the download, with the
remainder — finish the download, `PiperVoice.load`, the cache insert
(line 63) and the final `return self.loaded_voices[voice_id]` — still to
run; `pc = 2`: returned, with `result` the engine handle obtained. -/
structure ConcTask where
  vid : String
  pc : Nat := 0
  result : Option Nat := none
deriving DecidableEq

/-- The shared service state seen by the concurrent `get_voice` calls:
`cache` is `loaded_voices`, `next_engine` numbers `PiperVoice.load` calls,
and `load_count` counts the download-and-load sequences that were started
(entries into the `voice_id not in self.loaded_voices` branch of
`initialize_voice`). -/
structure ConcState where
  cache : List (String × Nat) := []
  next_engine : Nat := 0
  load_count : Nat := 0
  tasks : List ConcTask
deriving DecidableEq

/-- Replace the element at index `i` (out-of-range indices leave the list
unchanged). -/
def setAt {α : Type} : Nat → α → List α → List α
  | _, _, [] => []
  | 0, b, _ :: tl => b :: tl
  | n + 1, b, a :: tl => a :: setAt n b tl

/-- Read the element at index `i`. -/
def getAt? {α : Type} : Nat → List α → Option α
  | _, [] => none
  | 0, a :: _ => some a
  | n + 1, _ :: tl => getAt? n tl

/-- One cooperative step of task `i`.  A task at `pc = 0` atomically checks
the cache: on a hit it returns the cached engine (the hit path of
`get_voice` has no `await`); on a miss it enters the download-and-load
branch and suspends at the first network `await`.  A task at `pc = 1`
finishes its download, loads a fresh engine, stores it in the cache
(overwriting any engine another task stored meanwhile) and returns the
entry it just stored, exactly as lines 60-63 then line 90 of the source do
with no suspension after the second download completes. -/
def stepI (s : ConcState) (i : Nat) : ConcState :=
  match getAt? i s.tasks with
  | none => s
  | some t =>
    match t.pc with
    | 0 =>
      match lookupA t.vid s.cache with
      | some v => { s with tasks := setAt i { t with pc := 2, result := some v } s.tasks }
      | none => { s with load_count := s.load_count + 1,
                         tasks := setAt i { t with pc := 1 } s.tasks }
    | 1 =>
      { s with cache := setA t.vid s.next_engine s.cache,
               next_engine := s.next_engine + 1,
               tasks := setAt i { t with pc := 2, result := some s.next_engine } s.tasks }
    | _ => s

/-- Run a schedule: the event loop resumes the listed task indices in
order. -/
def runSched (s : ConcState) : List Nat → ConcState
  | [] => s
  | i :: rest => runSched (stepI s i) rest

/-- `n` concurrent `get_voice(vid)` calls against an empty cache. -/
def initConc (n : Nat) (vid : String) : ConcState :=
  { tasks := List.replicate n { vid := vid } }

/-! ### Concrete scenarios used by the claim theorems -/

/-- Network down, ffmpeg not installed. -/
def offlineEnv : Env := { net := fun _ => .httpError 500, ffmpeg := .missing }

/-- Everything works: every GET streams 256 bytes, ffmpeg produces a
64-byte MP3 from a 2048-byte WAV. -/
def happyEnv : Env := { net := fun _ => .ok 256, wav_bytes := 2048, mp3_bytes := 64 }

/-- The weights GET succeeds with 100 bytes; the metadata connection drops
after 50 bytes were streamed. -/
def configDropEnv : Env :=
  { net := fun url => if url = lessacMedium.model_url then .ok 100 else .connFail 50 }

/-- A fresh service: nothing cached, empty directories. -/
def freshState : TTSState := { loaded_voices := [], models_fs := [], audio_fs := [] }

/-- The default voice already loaded as engine handle 0. -/
def cachedLessacState : TTSState :=
  { loaded_voices := [("en_US-lessac-medium", 0)], models_fs := [], audio_fs := [],
    next_engine := 1 }

/-- Stale model files on disk for an id the catalog does not know. -/
def staleFilesState : TTSState :=
  { loaded_voices := [], audio_fs := [],
    models_fs := [("does-not-exist.onnx", 10), ("does-not-exist.onnx.json", 5)] }

/-- Both model files of the default voice present but zero bytes long. -/
def emptyFilesState : TTSState :=
  { loaded_voices := [], audio_fs := [],
    models_fs := [("en_US-lessac-medium.onnx", 0), ("en_US-lessac-medium.onnx.json", 0)] }

/-- A sweep candidate with last-modified time 8 days before day 9. -/
def oldFile : AFile := { name := "old.mp3", mtime := 86400 }

/-- A sweep candidate with last-modified time 6 days before day 9. -/
def newFile : AFile := { name := "new.mp3", mtime := 3 * 86400 }

/-! ### Toolkit lemmas -/

theorem lookupA_setA_self {α : Type} (k : String) (v : α) (l : List (String × α)) :
    lookupA k (setA k v l) = some v := by
  induction l with
  | nil => simp [setA, lookupA]
  | cons p tl ih =>
    obtain ⟨a, w⟩ := p
    by_cases h : a = k
    · simp [setA, h, lookupA]
    · simp [setA, h, lookupA, ih]

theorem lookupA_setA_ne {α : Type} {k k' : String} (v : α) (l : List (String × α))
    (h : k' ≠ k) : lookupA k (setA k' v l) = lookupA k l := by
  induction l with
  | nil => simp [setA, lookupA, h]
  | cons p tl ih =>
    obtain ⟨a, w⟩ := p
    by_cases ha : a = k'
    · simp [setA, ha, lookupA, h, ih]
    · simp [setA, ha, lookupA, ih]

theorem lookupA_setA_isSome {α : Type} {k : String} (k' : String) (v : α)
    {l : List (String × α)} (h : (lookupA k l).isSome) :
    (lookupA k (setA k' v l)).isSome := by
  by_cases hk : k' = k
  · subst hk; simp [lookupA_setA_self]
  · rw [lookupA_setA_ne v l hk]; exact h

theorem lookupA_removeA_ne {α : Type} {k k' : String} (l : List (String × α))
    (h : k' ≠ k) : lookupA k (removeA k' l) = lookupA k l := by
  induction l with
  | nil => simp [removeA, lookupA]
  | cons p tl ih =>
    obtain ⟨a, w⟩ := p
    by_cases ha : a = k'
    · subst ha
      simp [removeA, lookupA, h]
    · simp [removeA, ha, lookupA, ih]

theorem string_ext {s t : String} (h : s.data = t.data) : s = t := by
  cases s; cases t; exact congrArg String.mk h

theorem sdata_append (s t : String) : (s ++ t).data = s.data ++ t.data := by
  cases s; cases t; rfl

theorem sappend_assoc (a b c : String) : a ++ b ++ c = a ++ (b ++ c) := by
  apply string_ext
  simp [sdata_append, List.append_assoc]

theorem sappend_empty (s : String) : s ++ "" = s := by
  apply string_ext
  simp [sdata_append]

theorem sappend_right_inj {s a b : String} (h : s ++ a = s ++ b) : a = b := by
  apply string_ext
  have := congrArg String.data h
  simp [sdata_append] at this
  exact this

theorem sappend_right_ne (s : String) {a b : String} (h : a ≠ b) : s ++ a ≠ s ++ b :=
  fun hh => h (sappend_right_inj hh)

/-- `stem_of` strips exactly the trailing `".wav"` extension: the dropWhile
from the reversed name stops at the extension's own dot. -/
theorem stem_of_wav (s : String) : stem_of (s ++ ".wav") = s := by
  have hd : (s ++ ".wav").data = s.data ++ ['.', 'w', 'a', 'v'] := sdata_append s ".wav"
  have hc : '.' ∈ (s ++ ".wav").data := by
    rw [hd]; simp
  apply string_ext
  simp only [stem_of, if_pos hc, hd]
  rw [List.reverse_append]
  simp [List.dropWhile]

theorem with_suffix_wav_mp3 (s : String) :
    with_suffix (s ++ ".wav") ".mp3" = s ++ ".mp3" := by
  rw [with_suffix, stem_of_wav s]

/-- Every character of the sanitized, truncated fragment passed the
`keepChar` filter. -/
theorem mem_fragment_keepChar {c : Char} {t : String}
    (h : c ∈ (pySlice50 (safe_title_of t)).data) : keepChar c = true := by
  simp only [pySlice50, safe_title_of, pyRstrip] at h
  have h1 : c ∈ ((((t.data.filter keepChar).reverse.dropWhile pyIsSpace).reverse) : List Char) :=
    List.mem_of_mem_take h
  have h2 : c ∈ (t.data.filter keepChar).reverse.dropWhile pyIsSpace := by
    simpa using h1
  have h3 : c ∈ (t.data.filter keepChar).reverse :=
    List.Sublist.mem h2 (List.dropWhile_sublist pyIsSpace)
  have h4 : c ∈ t.data.filter keepChar := by simpa using h3
  exact (List.mem_filter.mp h4).2

/-- No dot survives the title sanitization. -/
theorem dot_not_mem_fragment (t : String) : '.' ∉ (pySlice50 (safe_title_of t)).data := by
  intro h
  have := mem_fragment_keepChar h
  simp [keepChar] at this

/-- Every derived filename is the conversion id, a tail, and the raw
`".wav"` extension. -/
theorem make_filename_shape (cid : String) (title : Option String) :
    ∃ b, make_filename cid title = (cid ++ b) ++ ".wav" := by
  cases title with
  | none => exact ⟨"", by rw [sappend_empty]; rfl⟩
  | some t =>
    by_cases h : t = ""
    · exact ⟨"", by simp [make_filename, h, sappend_empty]⟩
    · exact ⟨"_" ++ pySlice50 (safe_title_of t), by simp [make_filename, h, sappend_assoc]⟩

/-- Whenever `convert_text_to_speech` returns successfully (whatever ffmpeg
did), the returned id is the conversion id and the returned path is the
derived filename with its extension swapped to `".mp3"`. -/
theorem convert_ok_shape {env : Env} {st : TTSState} {cid text : String}
    {title : Option String} {vid? : Option String} {c p : String} {st' : TTSState}
    (h : convert_text_to_speech env st cid text title vid? = (.ok (c, p), st')) :
    c = cid ∧ p = with_suffix (make_filename cid title) ".mp3" := by
  rcases hg : get_voice env st vid? with ⟨r, st1⟩
  unfold convert_text_to_speech at h
  rw [hg] at h
  cases r with
  | error e => simp at h
  | ok v =>
    by_cases hs : env.synth_ok
    · obtain ⟨⟨hc, hp⟩, -⟩ : (cid = c ∧
          with_suffix (make_filename cid title) ".mp3" = p) ∧ _ = st' := by
        simpa [hs] using h
      exact ⟨hc.symm, hp.symm⟩
    · simp [hs] at h

/-- The success path of `convert_text_to_speech` when ffmpeg works: the
returned id is the conversion id, the returned path is the filename with its
extension swapped to `".mp3"`, and the file at that path holds the
transcoded bytes. -/
theorem convert_ok_works {env : Env} {st : TTSState} {cid text : String}
    {title : Option String} {vid? : Option String} {c p : String} {st' : TTSState}
    (hff : env.ffmpeg = .works)
    (h : convert_text_to_speech env st cid text title vid? = (.ok (c, p), st')) :
    c = cid ∧ p = with_suffix (make_filename cid title) ".mp3" ∧
      lookupA p st'.audio_fs = some env.mp3_bytes := by
  obtain ⟨b, hb⟩ := make_filename_shape cid title
  rcases hg : get_voice env st vid? with ⟨r, st1⟩
  unfold convert_text_to_speech at h
  rw [hg] at h
  cases r with
  | error e => simp at h
  | ok v =>
    by_cases hs : env.synth_ok
    · simp only [hs, if_pos] at h
      obtain ⟨⟨hc, hp⟩, hst⟩ : (cid = c ∧
          with_suffix (make_filename cid title) ".mp3" = p) ∧ _ = st' := by
        simpa using h
      subst hc; subst hp; subst hst
      refine ⟨rfl, rfl, ?_⟩
      rw [hb, with_suffix_wav_mp3]
      have hne : (cid ++ b) ++ ".wav" ≠ (cid ++ b) ++ ".mp3" :=
        sappend_right_ne (cid ++ b) (by decide)
      simp only [convert_to_mp3, hff]
      rw [lookupA_removeA_ne _ hne, lookupA_setA_self]
    · simp [hs] at h

/-- A successful `get_voice` leaves the returned engine cached under the id. -/
theorem get_voice_ok_cached {env : Env} {st : TTSState} {vid : String} {v : Nat}
    {st1 : TTSState} (h : get_voice env st (some vid) = (.ok v, st1)) :
    lookupA vid st1.loaded_voices = some v := by
  unfold get_voice at h
  simp only [Option.getD_some] at h
  cases hl : lookupA vid st.loaded_voices with
  | some w =>
    obtain ⟨hv, hst⟩ : w = v ∧ st = st1 := by simpa [hl] using h
    subst hv; subst hst
    exact hl
  | none =>
    rcases hi : initialize_voice env st (some vid) with ⟨ri, sti⟩
    cases ri with
    | error e => simp [hl, hi] at h
    | ok u =>
      cases hl2 : lookupA vid sti.loaded_voices with
      | some w =>
        obtain ⟨hv, hst⟩ : w = v ∧ sti = st1 := by simpa [hl, hi, hl2] using h
        subst hv; subst hst
        exact hl2
      | none => simp [hl, hi, hl2] at h

/-! ### The interleaving model: invariant machinery -/

/-- The number of tasks still at `pc = 0`. -/
def readyCount : List ConcTask → Nat
  | [] => 0
  | t :: l => (if t.pc = 0 then 1 else 0) + readyCount l

theorem readyCount_replicate (n : Nat) (t : ConcTask) (h : t.pc = 0) :
    readyCount (List.replicate n t) = n := by
  induction n with
  | zero => rfl
  | succ k ih =>
    simp [List.replicate_succ, readyCount, h, ih]
    omega

theorem length_setAt {α : Type} (i : Nat) (b : α) (l : List α) :
    (setAt i b l).length = l.length := by
  induction l generalizing i with
  | nil => simp [setAt]
  | cons a tl ih =>
    cases i with
    | zero => rfl
    | succ j => simp [setAt, ih]

theorem mem_setAt {α : Type} {x b : α} {l : List α} {i : Nat}
    (h : x ∈ setAt i b l) : x = b ∨ x ∈ l := by
  induction l generalizing i with
  | nil => simp [setAt] at h
  | cons a tl ih =>
    cases i with
    | zero =>
      rcases (by simpa [setAt] using h : x = b ∨ x ∈ tl) with h' | h'
      · exact Or.inl h'
      · exact Or.inr (List.mem_cons_of_mem a h')
    | succ j =>
      rcases (by simpa [setAt] using h : x = a ∨ x ∈ setAt j b tl) with h' | h'
      · exact Or.inr (h' ▸ List.mem_cons_self a tl)
      · rcases ih h' with h'' | h''
        · exact Or.inl h''
        · exact Or.inr (List.mem_cons_of_mem a h'')

theorem readyCount_setAt {i : Nat} {t b : ConcTask} {l : List ConcTask}
    (hg : getAt? i l = some t) (hb : b.pc ≠ 0) :
    readyCount (setAt i b l) + (if t.pc = 0 then 1 else 0) = readyCount l := by
  induction l generalizing i with
  | nil => simp [getAt?] at hg
  | cons a tl ih =>
    cases i with
    | zero =>
      have ha : a = t := by simpa [getAt?] using hg
      subst ha
      by_cases ht : a.pc = 0 <;> simp [setAt, readyCount, hb, ht] <;> omega
    | succ j =>
      have hrec := ih (by simpa [getAt?] using hg)
      by_cases ha : a.pc = 0 <;> simp [setAt, readyCount, ha] <;> omega

/-- The interleaving invariant for `n` concurrent `get_voice(vid)` calls:
the task count is fixed, every task targets `vid`, the number of started
download-and-load sequences plus the tasks still to run their first step
never exceeds `n`, every returned task carries an engine handle, and the
id of every returned task is present in the cache. -/
def ConcInv (vid : String) (n : Nat) (s : ConcState) : Prop :=
  s.tasks.length = n ∧
  (∀ t ∈ s.tasks, t.vid = vid) ∧
  s.load_count + readyCount s.tasks ≤ n ∧
  (∀ t ∈ s.tasks, t.pc = 2 → t.result.isSome) ∧
  (∀ t ∈ s.tasks, t.pc = 2 → (lookupA t.vid s.cache).isSome)

theorem concInv_init (n : Nat) (vid : String) : ConcInv vid n (initConc n vid) := by
  refine ⟨by simp [initConc], ?_, ?_, ?_, ?_⟩
  · intro t ht
    have := List.eq_of_mem_replicate ht
    simp [this]
  · have h := readyCount_replicate n ({ vid := vid } : ConcTask) rfl
    simp [initConc, h]
  · intro t ht h2
    have := List.eq_of_mem_replicate ht
    simp [this] at h2
  · intro t ht h2
    have := List.eq_of_mem_replicate ht
    simp [this] at h2

theorem mem_of_getAt? {α : Type} {i : Nat} {l : List α} {t : α}
    (h : getAt? i l = some t) : t ∈ l := by
  induction l generalizing i with
  | nil => simp [getAt?] at h
  | cons a tl ih =>
    cases i with
    | zero =>
      have : a = t := by simpa [getAt?] using h
      exact this ▸ List.mem_cons_self a tl
    | succ j => exact List.mem_cons_of_mem a (ih (by simpa [getAt?] using h))

theorem stepI_none {s : ConcState} {i : Nat} (hg : getAt? i s.tasks = none) :
    stepI s i = s := by
  unfold stepI
  simp [hg]

theorem stepI_hit {s : ConcState} {i : Nat} {t : ConcTask} {v : Nat}
    (hg : getAt? i s.tasks = some t) (hpc : t.pc = 0)
    (hl : lookupA t.vid s.cache = some v) :
    stepI s i = { s with tasks := setAt i { t with pc := 2, result := some v } s.tasks } := by
  unfold stepI
  simp [hg, hpc, hl]

theorem stepI_miss {s : ConcState} {i : Nat} {t : ConcTask}
    (hg : getAt? i s.tasks = some t) (hpc : t.pc = 0)
    (hl : lookupA t.vid s.cache = none) :
    stepI s i = { s with load_count := s.load_count + 1,
                         tasks := setAt i { t with pc := 1 } s.tasks } := by
  unfold stepI
  simp [hg, hpc, hl]

theorem stepI_load {s : ConcState} {i : Nat} {t : ConcTask}
    (hg : getAt? i s.tasks = some t) (hpc : t.pc = 1) :
    stepI s i = { s with cache := setA t.vid s.next_engine s.cache,
                         next_engine := s.next_engine + 1,
                         tasks := setAt i { t with pc := 2, result := some s.next_engine } s.tasks } := by
  unfold stepI
  simp [hg, hpc]

theorem stepI_done {s : ConcState} {i : Nat} {t : ConcTask}
    (hg : getAt? i s.tasks = some t) {m : Nat} (hpc : t.pc = m + 2) :
    stepI s i = s := by
  unfold stepI
  simp [hg, hpc]

theorem concInv_step {vid : String} {n : Nat} {s : ConcState}
    (h : ConcInv vid n s) (i : Nat) : ConcInv vid n (stepI s i) := by
  obtain ⟨hlen, hvid, hcount, hres, hcache⟩ := h
  cases hg : getAt? i s.tasks with
  | none => rw [stepI_none hg]; exact ⟨hlen, hvid, hcount, hres, hcache⟩
  | some t =>
    have htvid : t.vid = vid := hvid t (mem_of_getAt? hg)
    match hpc : t.pc with
    | 0 =>
      cases hl : lookupA t.vid s.cache with
      | some v =>
        rw [stepI_hit hg hpc hl]
        have hrc := readyCount_setAt (b := { t with pc := 2, result := some v }) hg (by simp)
        refine ⟨by simpa [length_setAt] using hlen, ?_, ?_, ?_, ?_⟩
        · intro x hx
          rcases mem_setAt hx with hx | hx
          · simp [hx, htvid]
          · exact hvid x hx
        · simp only []
          rw [hpc] at hrc
          simp at hrc
          omega
        · intro x hx
          rcases mem_setAt hx with hx | hx
          · intro _
            simp [hx]
          · exact hres x hx
        · intro x hx
          rcases mem_setAt hx with hx | hx
          · intro _
            simp only [hx, htvid ▸ hl]
            simp [hx, hl]
          · exact hcache x hx
      | none =>
        rw [stepI_miss hg hpc hl]
        have hrc := readyCount_setAt (b := { t with pc := 1 }) hg (by simp)
        refine ⟨by simpa [length_setAt] using hlen, ?_, ?_, ?_, ?_⟩
        · intro x hx
          rcases mem_setAt hx with hx | hx
          · simp [hx, htvid]
          · exact hvid x hx
        · simp only []
          rw [hpc] at hrc
          simp at hrc
          omega
        · intro x hx
          rcases mem_setAt hx with hx | hx
          · simp [hx]
          · exact hres x hx
        · intro x hx
          rcases mem_setAt hx with hx | hx
          · simp [hx]
          · exact hcache x hx
    | 1 =>
      rw [stepI_load hg hpc]
      have hrc := readyCount_setAt
        (b := { t with pc := 2, result := some s.next_engine }) hg (by simp)
      refine ⟨by simpa [length_setAt] using hlen, ?_, ?_, ?_, ?_⟩
      · intro x hx
        rcases mem_setAt hx with hx | hx
        · simp [hx, htvid]
        · exact hvid x hx
      · simp only []
        rw [hpc] at hrc
        simp at hrc
        omega
      · intro x hx
        rcases mem_setAt hx with hx | hx
        · simp [hx]
        · exact hres x hx
      · intro x hx
        rcases mem_setAt hx with hx | hx
        · intro _
          simp [hx, lookupA_setA_self]
        · intro h2
          exact lookupA_setA_isSome _ _ (hcache x hx h2)
    | (m + 2) =>
      rw [stepI_done hg hpc]
      exact ⟨hlen, hvid, hcount, hres, hcache⟩

theorem concInv_run {vid : String} {n : Nat} {s : ConcState}
    (h : ConcInv vid n s) (sched : List Nat) : ConcInv vid n (runSched s sched) := by
  induction sched generalizing s with
  | nil => exact h
  | cons i rest ih => exact ih (concInv_step h i)

/-! ### Claim theorems -/

/-- C1: evaluation of the fallback scenario.  With the external encoder
unavailable, `convert("Hello world")` raises no error and returns
`("job1", "job1.mp3")` — but the returned path carries the compressed
`.mp3` extension, not a raw-audio extension, and no file exists at it:
the audio directory is empty afterwards.  The fallback rename of
`_convert_to_mp3` targets `mp3_file.with_suffix(".wav")`, which is the
WAV's own path, so it keeps the WAV in place — and then line 200's
unconditional `audio_file.unlink()` deletes that only artifact before
`(conversion_id, mp3_file)` is returned. -/
theorem c1_fallback_loses_artifact :
    (convert_text_to_speech offlineEnv cachedLessacState "job1" "Hello world" none
        (some "en_US-lessac-medium")).1 = .ok ("job1", "job1.mp3") ∧
    (convert_text_to_speech offlineEnv cachedLessacState "job1" "Hello world" none
        (some "en_US-lessac-medium")).2.audio_fs = [] := by
  decide

/-- C2 counterexample: two concurrent `get_voice` calls for the same
uncached id, with the schedule "task 0 checks the cache and misses, task 1
checks the cache and misses, task 0 finishes its download-and-load, task 1
finishes its download-and-load".  Two download-and-load sequences run, not
exactly one, and the callers receive two distinct engines (handles 0 and
1): `get_voice`/`initialize_voice` hold no per-id gate, so a caller that
reaches the cache check while the first download is suspended at its
network `await` also observes a miss. -/
theorem c2_two_loads :
    (runSched (initConc 2 "en_US-lessac-medium") [0, 1, 0, 1]).load_count = 2 ∧
    (runSched (initConc 2 "en_US-lessac-medium") [0, 1, 0, 1]).tasks.map
      (fun t => t.result) = [some 0, some 1] := by
  decide

/-- C2 amended: under every interleaving of N concurrent `get_voice` calls
for the same uncached voice id, at most N download-and-load sequences are
triggered (one per caller that observes a cache miss — not exactly one),
every call that returns holds some engine handle, and once every call has
returned an engine for the id is cached. -/
theorem c2_amended (n : Nat) (vid : String) (sched : List Nat) :
    (runSched (initConc n vid) sched).load_count ≤ n ∧
    (∀ t ∈ (runSched (initConc n vid) sched).tasks, t.pc = 2 → t.result.isSome) ∧
    (0 < n → (∀ t ∈ (runSched (initConc n vid) sched).tasks, t.pc = 2) →
      (lookupA vid (runSched (initConc n vid) sched).cache).isSome) := by
  obtain ⟨hlen, hvid, hcount, hres, hcache⟩ := concInv_run (concInv_init n vid) sched
  refine ⟨by omega, hres, ?_⟩
  intro hn hdone
  have hne : (runSched (initConc n vid) sched).tasks ≠ [] := by
    intro hnil
    rw [hnil] at hlen
    simp at hlen
    omega
  obtain ⟨t, ht⟩ := List.exists_mem_of_ne_nil _ hne
  have := hcache t ht (hdone t ht)
  rwa [hvid t ht] at this

/-- C2 witness: the amended theorem applied to one caller and the schedule
that runs it to completion. -/
theorem c2_witness :
    (runSched (initConc 1 "en_US-lessac-medium") [0, 0]).load_count ≤ 1 ∧
    (lookupA "en_US-lessac-medium"
      (runSched (initConc 1 "en_US-lessac-medium") [0, 0]).cache).isSome :=
  ⟨(c2_amended 1 "en_US-lessac-medium" [0, 0]).1,
   (c2_amended 1 "en_US-lessac-medium" [0, 0]).2.2 (by decide) (by decide)⟩

/-- C4 counterexample: a sweep over a file 8 days old and a file 6 days old
with `max_age_days = 7` at time "day 9" removes exactly the 8-day-old file
and keeps the 6-day-old one, but its returned value is `none`: the Python
function is annotated `-> None` and has no `return` statement, so no count
of removed files is returned, contrary to the claim. -/
theorem c4_sweep_returns_none :
    cleanup_old_files 7 (9 * 86400) [oldFile, newFile] = (none, [newFile]) := by
  decide

/-- C4 amended: for every age bound, time and directory listing, the sweep
deletes exactly the regular files whose age strictly exceeds
`max_age_days * 24 * 60 * 60` seconds and whose deletion succeeds, skips
(rather than aborts on) per-file deletion failures, and returns `None`
rather than a count. -/
theorem c4_amended (max_age_days current_time : Int) (fs : List AFile) :
    cleanup_old_files max_age_days current_time fs =
      (none, fs.filter fun f =>
        !(f.isFile && decide (current_time - f.mtime > max_age_days * 24 * 60 * 60)
          && f.deletable)) := by
  induction fs with
  | nil => rfl
  | cons f rest ih =>
    by_cases hf : f.isFile <;> by_cases hd : f.deletable <;>
      by_cases hage : current_time - f.mtime > max_age_days * 24 * 60 * 60 <;>
      simp [cleanup_old_files, ih, hf, hd, hage, List.filter_cons]

/-- C9: once a `get_voice` call for an id has succeeded, an immediately
following sequential `get_voice` for the same id returns the same cached
engine with the state unchanged — in particular `fetched` is unchanged, so
no network request and no download happen on the second call. -/
theorem c9_cached_acquire_idempotent (env : Env) (st : TTSState) (vid : String)
    (v : Nat) (st1 : TTSState) (h : get_voice env st (some vid) = (.ok v, st1)) :
    get_voice env st1 (some vid) = (.ok v, st1) := by
  have hc := get_voice_ok_cached h
  unfold get_voice
  simp [hc]

/-- C9 witness: after a first `get_voice` for the default voice downloads
and caches engine 0, the second call returns engine 0 and the same state. -/
theorem c9_witness :
    get_voice happyEnv (get_voice happyEnv freshState (some "en_US-lessac-medium")).2
        (some "en_US-lessac-medium")
      = (.ok 0, (get_voice happyEnv freshState (some "en_US-lessac-medium")).2) :=
  c9_cached_acquire_idempotent happyEnv freshState "en_US-lessac-medium" 0
    (get_voice happyEnv freshState (some "en_US-lessac-medium")).2 (by decide)

/-- C10: a non-empty title all of whose characters fall outside the kept
set yields the base filename `<conversion id>_.wav` — the underscore is
appended although the sanitized fragment is empty — while an empty-string
title is falsy in `if title:` and yields `<conversion id>.wav` exactly as
an absent title does.  (Characters are classified by `keepChar`, which
matches the source's `c.isalnum() or c in (" ", "-", "_")` on ASCII.) -/
theorem c10_bare_underscore (cid title : String) (h1 : title ≠ "")
    (h2 : ∀ c ∈ title.data, keepChar c = false) :
    make_filename cid (some title) = cid ++ "_.wav" ∧
    make_filename cid (some "") = cid ++ ".wav" ∧
    make_filename cid none = cid ++ ".wav" := by
  refine ⟨?_, by simp [make_filename], rfl⟩
  have hfilter : title.data.filter keepChar = [] := by
    rw [List.filter_eq_nil_iff]
    intro c hc
    simp [h2 c hc]
  have hst : safe_title_of title = "" := by
    simp [safe_title_of, hfilter, pyRstrip]
  rw [make_filename]
  simp only [h1, if_neg h1]
  rw [hst]
  show cid ++ "_" ++ pySlice50 "" ++ ".wav" = cid ++ "_.wav"
  rw [(by decide : pySlice50 "" = ""), sappend_empty, sappend_assoc,
      (by decide : ("_" : String) ++ ".wav" = "_.wav")]

/-- C10 witness: the all-punctuation title `"!!!"`. -/
theorem c10_witness :
    make_filename "j" (some "!!!") = "j" ++ "_.wav" ∧
    make_filename "j" (some "") = "j" ++ ".wav" ∧
    make_filename "j" none = "j" ++ ".wav" :=
  c10_bare_underscore "j" "!!!" (by decide) (by decide)

/-- C5 counterexample: the title `"Report: Q1/Q2!!"` sanitizes to
`"Report Q1Q2"` (the characters `:`, `/`, `!` are stripped, keeping both
`Q`s and both digits), not to `"Report Q12 "` trimmed (that is,
`"Report Q12"`) as the claim states; the filename built from it is
`j_Report Q1Q2.wav`. -/
theorem c5_fragment_value :
    pySlice50 (safe_title_of "Report: Q1/Q2!!") = "Report Q1Q2" ∧
    pySlice50 (safe_title_of "Report: Q1/Q2!!") ≠ pyRstrip "Report Q12 " ∧
    make_filename "j" (some "Report: Q1/Q2!!") = "j_Report Q1Q2.wav" := by
  decide

/-- C5 amended: for every title that is present and non-empty, the path a
successful conversion returns appends, after the conversion id and an
underscore, exactly the fragment obtained by keeping only the characters
accepted by `keepChar` (Python `isalnum`, space, hyphen, underscore),
trimming trailing whitespace, and then truncating to 50 characters; in
particular `"Report: Q1/Q2!!"` yields the fragment `"Report Q1Q2"`. -/
theorem c5_sanitized_fragment (env : Env) (st : TTSState) (cid text title : String)
    (vid? : Option String) (c p : String) (st' : TTSState) (htitle : title ≠ "")
    (h : convert_text_to_speech env st cid text (some title) vid? = (.ok (c, p), st')) :
    c = cid ∧ p = cid ++ "_" ++ pySlice50 (safe_title_of title) ++ ".mp3" ∧
      pySlice50 (safe_title_of "Report: Q1/Q2!!") = "Report Q1Q2" := by
  obtain ⟨hc, hp⟩ := convert_ok_shape h
  refine ⟨hc, ?_, by decide⟩
  rw [hp, make_filename]
  simp only [if_neg htitle]
  exact with_suffix_wav_mp3 _

/-- C5 witness: the amended theorem applied to a concrete successful
conversion with the claim's example title. -/
theorem c5_witness :
    "j" = "j" ∧
    "j_Report Q1Q2.mp3"
      = "j" ++ "_" ++ pySlice50 (safe_title_of "Report: Q1/Q2!!") ++ ".mp3" ∧
    pySlice50 (safe_title_of "Report: Q1/Q2!!") = "Report Q1Q2" :=
  c5_sanitized_fragment happyEnv cachedLessacState "j" "hi" "Report: Q1/Q2!!"
    (some "en_US-lessac-medium") "j" "j_Report Q1Q2.mp3"
    (convert_text_to_speech happyEnv cachedLessacState "j" "hi"
      (some "Report: Q1/Q2!!") (some "en_US-lessac-medium")).2
    (by decide) (by decide)

/-- C8 counterexample: with the default voice cached and non-empty text,
but the external encoder unavailable, `convert_text_to_speech` returns
successfully with path `"job2.mp3"` — yet no file exists at that path
afterwards (the fallback rename is a no-op onto the WAV's own path and the
WAV is then unlinked), refuting "the file at that path exists and is
non-empty after the call returns" for a successful conversion. -/
theorem c8_success_without_file :
    (convert_text_to_speech offlineEnv cachedLessacState "job2" "Hello" none
        (some "en_US-lessac-medium")).1 = .ok ("job2", "job2.mp3") ∧
    lookupA "job2.mp3"
      (convert_text_to_speech offlineEnv cachedLessacState "job2" "Hello" none
        (some "en_US-lessac-medium")).2.audio_fs = none := by
  decide

/-- C8 amended: for every non-empty text and catalog voice id, provided the
external encoder is present and succeeds (producing a non-empty MP3), a
successful conversion returns the conversion id and a path whose filename
starts with that id, and the file at that path exists with a positive byte
count afterwards.  (Without the encoder the call still succeeds but the
returned path does not exist; see the counterexample.) -/
theorem c8_success_artifact (env : Env) (st : TTSState) (cid text : String)
    (title : Option String) (vid : String) (c p : String) (st' : TTSState)
    (htext : text ≠ "") (hvoice : (get_voice_by_id vid).isSome)
    (hff : env.ffmpeg = .works) (hbytes : 0 < env.mp3_bytes)
    (h : convert_text_to_speech env st cid text title (some vid) = (.ok (c, p), st')) :
    c = cid ∧ (∃ r, p = cid ++ r) ∧
      ∃ k, lookupA p st'.audio_fs = some k ∧ 0 < k := by
  obtain ⟨hc, hp, hlook⟩ := convert_ok_works hff h
  obtain ⟨b, hb⟩ := make_filename_shape cid title
  refine ⟨hc, ?_, env.mp3_bytes, hlook, hbytes⟩
  rw [hp, hb, with_suffix_wav_mp3]
  exact ⟨b ++ ".mp3", by rw [sappend_assoc]⟩

/-- C8 witness: a concrete successful conversion in a working
environment. -/
theorem c8_witness :
    "job3" = "job3" ∧ (∃ r, "job3.mp3" = "job3" ++ r) ∧
      ∃ k, lookupA "job3.mp3"
        (convert_text_to_speech happyEnv cachedLessacState "job3" "T" none
          (some "en_US-lessac-medium")).2.audio_fs = some k ∧ 0 < k :=
  c8_success_artifact happyEnv cachedLessacState "job3" "T" none
    "en_US-lessac-medium" "job3" "job3.mp3"
    (convert_text_to_speech happyEnv cachedLessacState "job3" "T" none
      (some "en_US-lessac-medium")).2
    (by decide) (by decide) rfl (by decide) (by decide)

/-- A fetch never removes a file from the models directory. -/
theorem fetch_file_preserves (env : Env) (st : TTSState) (url fname f : String)
    (hf : (lookupA f st.models_fs).isSome) :
    (lookupA f (fetch_file env st url fname).2.models_fs).isSome := by
  unfold fetch_file
  cases env.net url <;> simp [lookupA_setA_isSome _ _ hf, hf]

/-- C3 counterexample: with the metadata connection dropping after 50
bytes, the download fails — yet both the fully written weights file
(100 bytes) and the partially written metadata file (50 bytes) are left
visible under their final names, and the next load attempt finds both
files present and treats them as valid, returning the model path with no
error and no network request. -/
theorem c3_partial_files_left_behind :
    (download_voice_model configDropEnv freshState "en_US-lessac-medium").1
      = .error .downloadFailed ∧
    lookupA "en_US-lessac-medium.onnx"
      (download_voice_model configDropEnv freshState "en_US-lessac-medium").2.models_fs
      = some 100 ∧
    lookupA "en_US-lessac-medium.onnx.json"
      (download_voice_model configDropEnv freshState "en_US-lessac-medium").2.models_fs
      = some 50 ∧
    download_voice_model configDropEnv
        (download_voice_model configDropEnv freshState "en_US-lessac-medium").2
        "en_US-lessac-medium"
      = (.ok "en_US-lessac-medium.onnx",
         (download_voice_model configDropEnv freshState "en_US-lessac-medium").2) := by
  decide

/-- C3 amended: the download streams each file directly to its final name,
not to a temporary location, and removes nothing on failure: every file
present in the models directory before or during a download attempt is
still present afterwards, whatever the outcome; and once the weights GET
has succeeded, the weights file is visible under its final name even when
the metadata download then fails.  (A later attempt that finds both files
present treats them as valid; see the counterexample.) -/
theorem c3_no_temp_no_cleanup (env : Env) (st : TTSState) (vid f : String) :
    ((lookupA f st.models_fs).isSome →
      (lookupA f (download_voice_model env st vid).2.models_fs).isSome) ∧
    (∀ vm n, get_voice_by_id vid = some vm →
      lookupA (vid ++ ".onnx") st.models_fs = none →
      env.net vm.model_url = .ok n →
      lookupA (vid ++ ".onnx")
        (download_voice_model env st vid).2.models_fs = some n) := by
  constructor
  · intro hf
    unfold download_voice_model
    by_cases hcond : ((lookupA (vid ++ ".onnx") st.models_fs).isSome &&
        (lookupA (vid ++ ".onnx.json") st.models_fs).isSome) = true
    · simp [hcond, hf]
    · simp only [Bool.not_eq_true] at hcond
      cases hcat : get_voice_by_id vid with
      | none => simp [hcond, hcat, hf]
      | some vm =>
        rcases h1 : fetch_file env st vm.model_url (vid ++ ".onnx") with ⟨ok1, st1⟩
        have hf1 : (lookupA f st1.models_fs).isSome := by
          have := fetch_file_preserves env st vm.model_url (vid ++ ".onnx") f hf
          rwa [h1] at this
        rcases h2 : fetch_file env st1 vm.config_url (vid ++ ".onnx.json") with ⟨ok2, st2⟩
        have hf2 : (lookupA f st2.models_fs).isSome := by
          have := fetch_file_preserves env st1 vm.config_url (vid ++ ".onnx.json") f hf1
          rwa [h2] at this
        cases ok1 <;> cases ok2 <;> simp [hcond, hcat, h1, h2, hf1, hf2]
  · intro vm n hcat hmiss h1
    have hcond : ((lookupA (vid ++ ".onnx") st.models_fs).isSome &&
        (lookupA (vid ++ ".onnx.json") st.models_fs).isSome) = false := by
      simp [hmiss]
    have hne : (vid ++ ".onnx.json") ≠ (vid ++ ".onnx") :=
      sappend_right_ne vid (by decide)
    unfold download_voice_model
    cases h2 : env.net vm.config_url <;>
      simp [hcond, hcat, fetch_file, h1, h2, lookupA_setA_ne _ _ hne, lookupA_setA_self]

/-- C3 witness: the amended theorem applied to a preserved stale file and
to a fresh download of the default voice's weights. -/
theorem c3_witness :
    (lookupA "does-not-exist.onnx"
      (download_voice_model offlineEnv staleFilesState "x").2.models_fs).isSome ∧
    lookupA ("en_US-lessac-medium" ++ ".onnx")
      (download_voice_model happyEnv freshState "en_US-lessac-medium").2.models_fs
      = some 256 :=
  ⟨(c3_no_temp_no_cleanup offlineEnv staleFilesState "x" "does-not-exist.onnx").1
      (by decide),
   (c3_no_temp_no_cleanup happyEnv freshState "en_US-lessac-medium" "f").2
      lessacMedium 256 (by decide) (by decide) rfl⟩

/-- C6 counterexample: the id `"does-not-exist"` is absent from the
catalog, yet when stale model files for it are already on disk,
`get_voice` succeeds (engine handle 0) instead of failing with the
unknown-voice error: `_download_voice_model` checks the disk (line 110)
before it consults the catalog (line 114). -/
theorem c6_stale_files_bypass_catalog :
    get_voice_by_id "does-not-exist" = none ∧
    (get_voice offlineEnv staleFilesState (some "does-not-exist")).1 = .ok 0 ∧
    (get_voice offlineEnv staleFilesState (some "does-not-exist")).2.fetched = [] := by
  decide

/-- C6 amended: for every voice id absent from the catalog, provided no
engine is cached for it and at least one of its two model files is missing
from disk, `get_voice` fails with the unknown-voice error and leaves the
state exactly unchanged — in particular no file is created under the
models directory and no network request is issued.  (When both stale files
are already on disk the call instead succeeds without consulting the
catalog; see the counterexample.) -/
theorem c6_unknown_voice_rejected (env : Env) (st : TTSState) (vid : String)
    (hcache : lookupA vid st.loaded_voices = none)
    (hfiles : lookupA (vid ++ ".onnx") st.models_fs = none ∨
      lookupA (vid ++ ".onnx.json") st.models_fs = none)
    (hcat : get_voice_by_id vid = none) :
    get_voice env st (some vid) = (.error (.voiceNotFound vid), st) := by
  have hcond : ((lookupA (vid ++ ".onnx") st.models_fs).isSome &&
      (lookupA (vid ++ ".onnx.json") st.models_fs).isSome) = false := by
    rcases hfiles with h | h <;> simp [h]
  have hdl : download_voice_model env st vid = (.error (.voiceNotFound vid), st) := by
    unfold download_voice_model
    simp [hcond, hcat]
  have hinit : initialize_voice env st (some vid) = (.error (.voiceNotFound vid), st) := by
    unfold initialize_voice
    simp [hcache, hdl]
  unfold get_voice
  simp [hcache, hinit]

/-- C6 witness: `acquire("does-not-exist")` against a fresh service. -/
theorem c6_witness :
    get_voice offlineEnv freshState (some "does-not-exist")
      = (.error (.voiceNotFound "does-not-exist"), freshState) :=
  c6_unknown_voice_rejected offlineEnv freshState "does-not-exist"
    (by decide) (Or.inl (by decide)) (by decide)

/-- C7 counterexample: both model files of the default voice exist but are
zero bytes long, and the load sequence still skips the download entirely —
the state (including the `fetched` log) is returned unchanged and the
existing empty file is reported as the model path.  The source checks only
`exists()` (line 110), never the file sizes, refuting "non-empty" in the
skip condition and refuting "if either is missing or empty, both are
downloaded". -/
theorem c7_empty_files_skip_download :
    download_voice_model offlineEnv emptyFilesState "en_US-lessac-medium"
      = (.ok "en_US-lessac-medium.onnx", emptyFilesState) := by
  decide

/-- C7 amended: the load sequence skips all network activity if and only
if both the weights file and the metadata file already exist on disk,
regardless of their sizes: when both exist the call returns the model path
with the state unchanged, and when either is missing (for a catalog id
whose two GETs succeed) both files are fetched — weights then metadata —
and written under their final names. -/
theorem c7_skip_iff_both_exist (env : Env) (st : TTSState) (vid : String) :
    ((lookupA (vid ++ ".onnx") st.models_fs).isSome →
      (lookupA (vid ++ ".onnx.json") st.models_fs).isSome →
      download_voice_model env st vid = (.ok (vid ++ ".onnx"), st)) ∧
    (∀ vm n m, get_voice_by_id vid = some vm →
      (lookupA (vid ++ ".onnx") st.models_fs = none ∨
        lookupA (vid ++ ".onnx.json") st.models_fs = none) →
      env.net vm.model_url = .ok n → env.net vm.config_url = .ok m →
      download_voice_model env st vid =
        (.ok (vid ++ ".onnx"),
         { st with
             models_fs := setA (vid ++ ".onnx.json") m (setA (vid ++ ".onnx") n st.models_fs),
             fetched := st.fetched ++ [vm.model_url, vm.config_url] })) := by
  constructor
  · intro h1 h2
    unfold download_voice_model
    simp [h1, h2]
  · intro vm n m hcat hmiss h1 h2
    have hcond : ((lookupA (vid ++ ".onnx") st.models_fs).isSome &&
        (lookupA (vid ++ ".onnx.json") st.models_fs).isSome) = false := by
      rcases hmiss with h | h <;> simp [h]
    unfold download_voice_model
    simp [hcond, hcat, fetch_file, h1, h2]

/-- C7 witness: the skip direction on stale files and the fetch direction
on a fresh service. -/
theorem c7_witness :
    download_voice_model offlineEnv staleFilesState "does-not-exist"
      = (.ok "does-not-exist.onnx", staleFilesState) ∧
    download_voice_model happyEnv freshState "en_US-lessac-medium"
      = (.ok "en_US-lessac-medium.onnx",
         { freshState with
             models_fs := setA "en_US-lessac-medium.onnx.json" 256
               (setA "en_US-lessac-medium.onnx" 256 freshState.models_fs),
             fetched := freshState.fetched
               ++ [lessacMedium.model_url, lessacMedium.config_url] }) :=
  ⟨(c7_skip_iff_both_exist offlineEnv staleFilesState "does-not-exist").1
      (by decide) (by decide),
   (c7_skip_iff_both_exist happyEnv freshState "en_US-lessac-medium").2
      lessacMedium 256 256 (by decide) (Or.inl (by decide)) rfl rfl⟩

end MdTts
